import Mathlib

/-!
Shallow embedding of two OpenUSD source files:

* `third_party/renderman-24/plugin/hdPrman/renderDelegate.cpp`
  (the `HdPrmanRenderDelegate` prim factories, render-settings versioning
  and render-lifecycle control), and
* `pxr/usdImaging/usdImagingGL/wrapEngine.cpp`
  (the scripting-facade wrappers `_TestIntersection` and
  `_SetOverrideWindowPolicy`).

Tokens (`TfToken`) and scene paths (`SdfPath`) are modelled as `String`;
the empty string stands for `SdfPath::EmptyPath()`.  `VtValue` is modelled
as a tagged union of the payload types this code actually stores
(string, bool, int, float); the float payload is represented by `Rat`,
which is faithful here because the delegate only stores and compares
settings values, never does float arithmetic on them.
-/

namespace OpenUSD

/-- Model of `VtValue` restricted to the payload types used by
`renderDelegate.cpp` (string, bool, int, float). -/
inductive VtValue where
  | stringV : String → VtValue
  | boolV : Bool → VtValue
  | intV : Int → VtValue
  | floatV : Rat → VtValue
deriving DecidableEq, Repr

/-- Lookup in the render-settings map (`_settingsMap.find(key)`).
The `std::map` is modelled as an association list. -/
def findSetting : List (String × VtValue) → String → Option VtValue
  | [], _ => none
  | (k', v') :: rest, k => if k' = k then some v' else findSetting rest k

/-- `_settingsMap[key] = value`: replace the entry when the key is
present, otherwise insert a new entry. -/
def storeSetting : List (String × VtValue) → String → VtValue → List (String × VtValue)
  | [], k, v => [(k, v)]
  | (k', v') :: rest, k, v =>
      if k' = k then (k, v) :: rest else (k', v') :: storeSetting rest k v

/-- The slice of `HdPrman_RenderParam` state touched by
`renderDelegate.cpp`: the scene light counter, the scene version bumped by
`Restart`, and whether the render loop is currently running. -/
structure RenderParamState where
  sceneLightCount : Int
  sceneVersion : Nat
  isRendering : Bool
deriving DecidableEq, Repr

/-- Modelled from the spec: `HdPrman_RenderParam::IncreaseSceneLightCount`
is declared outside the provided sources; the spec describes the light
count as an integer counter "incremented/decremented on light Sprim
creation/destruction". -/
def IncreaseSceneLightCount (rp : RenderParamState) : RenderParamState :=
  { rp with sceneLightCount := rp.sceneLightCount + 1 }

/-- Modelled from the spec: `HdPrman_RenderParam::DecreaseSceneLightCount`
is declared outside the provided sources; see
`IncreaseSceneLightCount`. -/
def DecreaseSceneLightCount (rp : RenderParamState) : RenderParamState :=
  { rp with sceneLightCount := rp.sceneLightCount - 1 }

/-- A render-setting descriptor: display name, key token, default value
(`HdRenderSettingDescriptor`). -/
structure SettingDescriptor where
  name : String
  key : String
  defaultValue : VtValue
deriving DecidableEq, Repr

/-- The delegate state visible in `renderDelegate.cpp`: the settings map
and its version counter (from the `HdRenderDelegate` base), the
descriptor list built at initialization, and the render-param state. -/
structure DelegateState where
  settingsMap : List (String × VtValue)
  settingsVersion : Nat
  settingDescriptors : List SettingDescriptor
  renderParam : RenderParamState
deriving DecidableEq, Repr

/-- `HdPrmanRenderDelegate::SetRenderSetting` (renderDelegate.cpp:487-506):
bump `_settingsVersion` when the key is absent or the stored value
differs, then store the value. -/
def SetRenderSetting (st : DelegateState) (key : String) (value : VtValue) :
    DelegateState :=
  let newVersion :=
    match findSetting st.settingsMap key with
    | some prev => if value ≠ prev then st.settingsVersion + 1 else st.settingsVersion
    | none => st.settingsVersion + 1
  { st with
      settingsVersion := newVersion
      settingsMap := storeSetting st.settingsMap key value }

/-- Modelled from the spec: `HdRenderDelegate::GetRenderSetting<bool>`
(base-class template, outside the provided sources) looks the key up in
the settings map and returns the stored boolean, or the supplied default
when the key is absent or holds a value of another type. -/
def getBoolRenderSetting (st : DelegateState) (key : String) (dflt : Bool) : Bool :=
  match findSetting st.settingsMap key with
  | some (VtValue.boolV b) => b
  | _ => dflt

/-- `HdPrmanRenderDelegate::IsInteractive` (renderDelegate.cpp:131-136):
`GetRenderSetting<bool>(HdRenderSettingsTokens->enableInteractive, true)`. -/
def IsInteractive (st : DelegateState) : Bool :=
  getBoolRenderSetting st "enableInteractive" true

/-- Modelled from the spec: `HdPrman_RenderParam::StopRender(blocking)` is
implemented outside the provided sources; the spec says a blocking stop
does not return until the loop has halted, while a non-blocking request
is advisory until the loop observes it. -/
def StopRender (blocking : Bool) (rp : RenderParamState) : RenderParamState :=
  if blocking then { rp with isRendering := false } else rp

/-- `HdPrmanRenderDelegate::IsStopped` (renderDelegate.cpp:517-524). -/
def IsStopped (st : DelegateState) : Bool :=
  if IsInteractive st then !st.renderParam.isRendering else true

/-- `HdPrmanRenderDelegate::Stop` (renderDelegate.cpp:526-534): returns
the reported boolean together with the updated delegate state. -/
def Stop (st : DelegateState) (blocking : Bool) : Bool × DelegateState :=
  if IsInteractive st then
    let rp := StopRender blocking st.renderParam
    (!rp.isRendering, { st with renderParam := rp })
  else
    (true, st)

/-- `HdPrmanRenderDelegate::Restart` (renderDelegate.cpp:536-545): in
interactive configuration bump `_renderParam->sceneVersion` and return
true; otherwise return false. -/
def Restart (st : DelegateState) : Bool × DelegateState :=
  if IsInteractive st then
    (true,
     { st with renderParam :=
        { st.renderParam with sceneVersion := st.renderParam.sceneVersion + 1 } })
  else
    (false, st)

/-! ## Prim factories -/

/-- `HdPrmanRenderDelegate::SUPPORTED_RPRIM_TYPES` (renderDelegate.cpp:74-80). -/
def SUPPORTED_RPRIM_TYPES : List String :=
  ["mesh", "basisCurves", "points", "volume"]

/-- `HdPrmanRenderDelegate::SUPPORTED_SPRIM_TYPES` (renderDelegate.cpp:82-98). -/
def SUPPORTED_SPRIM_TYPES : List String :=
  ["camera", "material", "distantLight", "domeLight", "light", "lightFilter",
   "rectLight", "diskLight", "cylinderLight", "sphereLight", "pluginLight",
   "extComputation", "coordSys", "prmanParams"]

/-- `HdPrmanRenderDelegate::SUPPORTED_BPRIM_TYPES` (renderDelegate.cpp:100-105). -/
def SUPPORTED_BPRIM_TYPES : List String :=
  ["renderBuffer", "openvdbAsset", "field3dAsset"]

/-- The concrete Rprim classes `CreateRprim` constructs. -/
inductive RprimClass where
  | mesh
  | basisCurves
  | points
  | volume
deriving DecidableEq, Repr

/-- The token each Rprim class implements (`HdPrman_Mesh` ↦ `mesh`, …). -/
def RprimClass.tag : RprimClass → String
  | .mesh => "mesh"
  | .basisCurves => "basisCurves"
  | .points => "points"
  | .volume => "volume"

/-- A constructed Rprim: its concrete class and its scene path. -/
structure Rprim where
  cls : RprimClass
  id : String
deriving DecidableEq, Repr

/-- The prim type an Rprim object reports: determined by its class. -/
def Rprim.reportedType (r : Rprim) : String := r.cls.tag

/-- `HdPrmanRenderDelegate::CreateRprim` (renderDelegate.cpp:287-304).
The second component records whether `TF_CODING_ERROR` was emitted. -/
def CreateRprim (typeId : String) (rprimId : String) : Option Rprim × Bool :=
  if typeId = "mesh" then (some ⟨RprimClass.mesh, rprimId⟩, false)
  else if typeId = "basisCurves" then (some ⟨RprimClass.basisCurves, rprimId⟩, false)
  else if typeId = "points" then (some ⟨RprimClass.points, rprimId⟩, false)
  else if typeId = "volume" then (some ⟨RprimClass.volume, rprimId⟩, false)
  else (none, true)

/-- The concrete Sprim classes `CreateSprim` constructs.  All eight light
tokens construct the same class `HdPrmanLight`, which stores the
requested token. -/
inductive SprimClass where
  | camera
  | material
  | coordSys
  | lightFilter
  | light
  | extComputation
  | paramsSetter
deriving DecidableEq, Repr

/-- A constructed Sprim: class, scene path, and the type token it was
constructed with (stored by `HdPrmanLight`/`HdPrmanLightFilter`). -/
structure Sprim where
  cls : SprimClass
  id : String
  typeId : String
deriving DecidableEq, Repr

/-- The prim type an Sprim object reports: for single-token classes the
class's token, for `HdPrmanLight`/`HdPrmanLightFilter` the stored
constructor token. -/
def Sprim.reportedType (s : Sprim) : String :=
  match s.cls with
  | .camera => "camera"
  | .material => "material"
  | .coordSys => "coordSys"
  | .lightFilter => s.typeId
  | .light => s.typeId
  | .extComputation => "extComputation"
  | .paramsSetter => "prmanParams"

/-- The eight-way light-token test of renderDelegate.cpp:325-332. -/
def isLightType (t : String) : Bool :=
  decide (t = "light") || decide (t = "distantLight") || decide (t = "domeLight") ||
  decide (t = "rectLight") || decide (t = "diskLight") || decide (t = "cylinderLight") ||
  decide (t = "sphereLight") || decide (t = "pluginLight")

/-- `HdPrmanRenderDelegate::CreateSprim` (renderDelegate.cpp:312-349).
Returns the constructed prim, the `TF_CODING_ERROR` flag, and the
render-param state after the light-count side effect (only light tokens
with a non-empty path call `IncreaseSceneLightCount`, cpp:335-338). -/
def CreateSprim (typeId : String) (sprimId : String) (rp : RenderParamState) :
    (Option Sprim × Bool) × RenderParamState :=
  if typeId = "camera" then ((some ⟨SprimClass.camera, sprimId, typeId⟩, false), rp)
  else if typeId = "material" then ((some ⟨SprimClass.material, sprimId, typeId⟩, false), rp)
  else if typeId = "coordSys" then ((some ⟨SprimClass.coordSys, sprimId, typeId⟩, false), rp)
  else if typeId = "lightFilter" then ((some ⟨SprimClass.lightFilter, sprimId, typeId⟩, false), rp)
  else if isLightType typeId then
    ((some ⟨SprimClass.light, sprimId, typeId⟩, false),
     if sprimId ≠ "" then IncreaseSceneLightCount rp else rp)
  else if typeId = "extComputation" then ((some ⟨SprimClass.extComputation, sprimId, typeId⟩, false), rp)
  else if typeId = "prmanParams" then ((some ⟨SprimClass.paramsSetter, sprimId, typeId⟩, false), rp)
  else ((none, true), rp)

/-- `HdPrmanRenderDelegate::CreateFallbackSprim` (renderDelegate.cpp:351-382):
same dispatch with `SdfPath::EmptyPath()` and no light-count side effect. -/
def CreateFallbackSprim (typeId : String) : Option Sprim × Bool :=
  if typeId = "camera" then (some ⟨SprimClass.camera, "", typeId⟩, false)
  else if typeId = "material" then (some ⟨SprimClass.material, "", typeId⟩, false)
  else if typeId = "coordSys" then (some ⟨SprimClass.coordSys, "", typeId⟩, false)
  else if typeId = "lightFilter" then (some ⟨SprimClass.lightFilter, "", typeId⟩, false)
  else if isLightType typeId then (some ⟨SprimClass.light, "", typeId⟩, false)
  else if typeId = "extComputation" then (some ⟨SprimClass.extComputation, "", typeId⟩, false)
  else if typeId = "prmanParams" then (some ⟨SprimClass.paramsSetter, "", typeId⟩, false)
  else (none, true)

/-- `HdPrmanRenderDelegate::DestroySprim` (renderDelegate.cpp:384-392):
decrement the scene light count for every Sprim with a non-empty path
(the type is not inspected), then delete the prim. -/
def DestroySprim (s : Sprim) (rp : RenderParamState) : RenderParamState :=
  if s.id ≠ "" then DecreaseSceneLightCount rp else rp

/-- The concrete Bprim classes `CreateBprim` constructs.  Both field
tokens construct `HdPrman_Field`, which stores the requested token. -/
inductive BprimClass where
  | field
  | renderBuffer
deriving DecidableEq, Repr

/-- A constructed Bprim: class, scene path, constructor token. -/
structure Bprim where
  cls : BprimClass
  id : String
  typeId : String
deriving DecidableEq, Repr

/-- The prim type a Bprim object reports. -/
def Bprim.reportedType (b : Bprim) : String :=
  match b.cls with
  | .field => b.typeId
  | .renderBuffer => "renderBuffer"

/-- `HdPrmanRenderDelegate::CreateBprim` (renderDelegate.cpp:394-408). -/
def CreateBprim (typeId : String) (bprimId : String) : Option Bprim × Bool :=
  if typeId = "openvdbAsset" ∨ typeId = "field3dAsset" then
    (some ⟨BprimClass.field, bprimId, typeId⟩, false)
  else if typeId = "renderBuffer" then (some ⟨BprimClass.renderBuffer, bprimId, typeId⟩, false)
  else (none, true)

/-- `HdPrmanRenderDelegate::CreateFallbackBprim` (renderDelegate.cpp:410-422). -/
def CreateFallbackBprim (typeId : String) : Option Bprim × Bool :=
  if typeId = "openvdbAsset" ∨ typeId = "field3dAsset" then
    (some ⟨BprimClass.field, "", typeId⟩, false)
  else if typeId = "renderBuffer" then (some ⟨BprimClass.renderBuffer, "", typeId⟩, false)
  else (none, true)

/-! ## Initialization of the setting-descriptor list -/

/-- The environment-derived inputs read once by
`HdPrmanRenderDelegate::_Initialize` (renderDelegate.cpp:139-208):
`HD_PRMAN_INTEGRATOR`, `HD_PRMAN_MAX_SAMPLES` (default 64),
`RILEY_VARIANT`, and the `HD_PRMAN_ENABLE_QUICKINTEGRATE` env setting. -/
structure PrmanEnv where
  integratorEnv : String
  maxSamplesEnv : Option Int
  rileyVariantEnv : String
  enableQuickIntegrate : Bool
deriving DecidableEq, Repr

/-- The descriptor-list construction of
`HdPrmanRenderDelegate::_Initialize` (renderDelegate.cpp:139-201): the
base entries are Integrator, Max Samples, Variance Threshold, Riley
variant and Disable motion blur; when the quick-integrate env setting is
enabled, the Interactive Integrator and its timeout (default 200) are
pushed directly after the Integrator entry.  `0.001f` is modelled as the
rational `1 / 1000` (the value is only stored, never computed with). -/
def initSettingDescriptors (env : PrmanEnv) : List SettingDescriptor :=
  let integrator := if env.integratorEnv = "" then "PxrPathTracer" else env.integratorEnv
  let maxSamples := env.maxSamplesEnv.getD 64
  let pixelVariance : Rat := 1 / 1000
  [⟨"Integrator", "integratorName", VtValue.stringV integrator⟩]
  ++ (if env.enableQuickIntegrate then
        [⟨"Interactive Integrator", "interactiveIntegrator",
          VtValue.stringV "PxrDirectLighting"⟩,
         ⟨"Interactive Integrator Timeout (ms)", "interactiveIntegratorTimeout",
          VtValue.intV 200⟩]
      else [])
  ++ [⟨"Max Samples", "convergedSamplesPerPixel", VtValue.intV maxSamples⟩,
      ⟨"Variance Threshold", "convergedVariance", VtValue.floatV pixelVariance⟩,
      ⟨"Riley variant", "rileyVariant", VtValue.stringV env.rileyVariantEnv⟩,
      ⟨"Disable motion blur", "disableMotionBlur", VtValue.boolV false⟩]

/-- The delegate state after construction: `_Initialize` fills
`_settingDescriptors` once from the environment; the settings map starts
from the map passed to the constructor. -/
def initialDelegateState (env : PrmanEnv) (settingsMap : List (String × VtValue)) :
    DelegateState :=
  { settingsMap := settingsMap
    settingsVersion := 0
    settingDescriptors := initSettingDescriptors env
    renderParam := { sceneLightCount := 0, sceneVersion := 0, isRendering := false } }

/-- `HdPrmanRenderDelegate::GetRenderSettingDescriptors`
(renderDelegate.cpp:221-225): returns the stored list; the
quick-integrate flag is not consulted per query. -/
def GetRenderSettingDescriptors (st : DelegateState) : List SettingDescriptor :=
  st.settingDescriptors

/-! ## Sequences of Sprim create/destroy calls (light-count invariant) -/

/-- One call the host orchestrator can make against the Sprim factory:
`CreateSprim` with a type token and a path, `CreateFallbackSprim` with a
type token, or `DestroySprim` of the i-th currently live prim. -/
inductive SprimOp where
  | create (typeId : String) (sprimId : String)
  | createFallback (typeId : String)
  | destroy (i : Nat)
deriving DecidableEq, Repr

/-- Whether an op only involves light-category type tags (destroy carries
no tag: it is restricted by which prims are live). -/
def SprimOp.onLightTags : SprimOp → Bool
  | .create t _ => isLightType t
  | .createFallback t => isLightType t
  | .destroy _ => true

/-- Run one factory call against the pool of live prims and the
render-param state.  Created prims (when the factory returns one) become
live; `destroy i` removes the i-th live prim through `DestroySprim`. -/
def runSprimOp (acc : List Sprim × RenderParamState) (op : SprimOp) :
    List Sprim × RenderParamState :=
  match op with
  | .create t sprimId =>
      match CreateSprim t sprimId acc.2 with
      | ((some s, _), rp) => (s :: acc.1, rp)
      | ((none, _), rp) => (acc.1, rp)
  | .createFallback t =>
      match CreateFallbackSprim t with
      | (some s, _) => (s :: acc.1, acc.2)
      | (none, _) => acc
  | .destroy i =>
      match acc.1[i]? with
      | some s => (acc.1.eraseIdx i, DestroySprim s acc.2)
      | none => acc

/-- Run a sequence of factory calls. -/
def runSprimOps (ops : List SprimOp) (acc : List Sprim × RenderParamState) :
    List Sprim × RenderParamState :=
  ops.foldl runSprimOp acc

/-- Whether a live Sprim is a non-fallback light instance. -/
def nonFallbackLight (s : Sprim) : Bool :=
  decide (s.cls = SprimClass.light ∧ s.id ≠ "")

/-- The number of currently live non-fallback light instances. -/
def liveNonFallbackLights (live : List Sprim) : Nat :=
  live.countP nonFallbackLight

/-! ## Scripting facade (wrapEngine.cpp) -/

/-- `CameraUtilConformWindowPolicy`. -/
inductive ConformWindowPolicy where
  | matchVertically
  | matchHorizontally
  | fit
  | crop
  | dontConform
deriving DecidableEq, Repr

/-- `_SetOverrideWindowPolicy` (wrapEngine.cpp:92-101).  The Python
argument is modelled as `Option ConformWindowPolicy`: `some p` when
`extract<CameraUtilConformWindowPolicy>` succeeds, `none` otherwise.
The result is the `(override-enabled, policy)` pair forwarded to
`UsdImagingGLEngine::SetOverrideWindowPolicy`. -/
def SetOverrideWindowPolicyWrap (pyObj : Option ConformWindowPolicy) :
    Bool × ConformWindowPolicy :=
  match pyObj with
  | some p => (true, p)
  | none => (false, ConformWindowPolicy.fit)

/-- A 3-component double vector (`GfVec3d`); only stored and returned by
the facade, never computed with, so the component type is immaterial. -/
structure Vec3 where
  x : Rat
  y : Rat
  z : Rat
deriving DecidableEq, Repr

/-- The outputs `UsdImagingGLEngine::TestIntersection` writes through its
out-parameters (wrapEngine.cpp:55-72): hit point, hit normal, hit prim
path, hit instancer path, hit instance index, and the instancer context
(a list of path/index pairs). -/
structure EngineIntersection where
  hitPoint : Vec3
  hitNormal : Vec3
  hitPrimPath : String
  hitInstancerPath : String
  hitInstanceIndex : Int
  instancerContext : List (String × Int)
deriving DecidableEq, Repr

/-- The tuple `_TestIntersection` returns to Python
(wrapEngine.cpp:81-82). -/
structure IntersectionTuple where
  hitPoint : Vec3
  hitNormal : Vec3
  hitPrimPath : String
  hitInstanceIndex : Int
  topLevelInstancerPath : String
  topLevelInstanceIndex : Int
deriving DecidableEq, Repr

/-- `_TestIntersection` (wrapEngine.cpp:47-83), as a function of what the
underlying engine produced: `topLevelPath`/`topLevelInstanceIndex` start
as the empty path and -1 and are overwritten with `instancerContext[0]`
when the context is non-empty; the tuple drops the engine's
`hitInstancerPath` and every context entry beyond the first. -/
def TestIntersectionWrap (e : EngineIntersection) : IntersectionTuple :=
  match e.instancerContext with
  | [] =>
      { hitPoint := e.hitPoint, hitNormal := e.hitNormal
        hitPrimPath := e.hitPrimPath, hitInstanceIndex := e.hitInstanceIndex
        topLevelInstancerPath := "", topLevelInstanceIndex := -1 }
  | (p, i) :: _ =>
      { hitPoint := e.hitPoint, hitNormal := e.hitNormal
        hitPrimPath := e.hitPrimPath, hitInstanceIndex := e.hitInstanceIndex
        topLevelInstancerPath := p, topLevelInstanceIndex := i }

/-- The eight light tokens of renderDelegate.cpp:325-332, as a list. -/
def lightTokens : List String :=
  ["light", "distantLight", "domeLight", "rectLight", "diskLight",
   "cylinderLight", "sphereLight", "pluginLight"]

/-- A demonstration sequence of light-category factory calls. -/
def demoLightOps : List SprimOp :=
  [SprimOp.create "domeLight" "/World/dome", SprimOp.createFallback "light",
   SprimOp.create "rectLight" "/World/rect", SprimOp.create "sphereLight" "",
   SprimOp.destroy 1, SprimOp.destroy 2]

/-! ## Helper lemmas -/

theorem isLightType_iff_mem (t : String) : isLightType t = true ↔ t ∈ lightTokens := by
  simp [isLightType, lightTokens, or_assoc]

theorem findSetting_storeSetting_self (m : List (String × VtValue)) (k : String)
    (v : VtValue) : findSetting (storeSetting m k v) k = some v := by
  induction m with
  | nil => simp [storeSetting, findSetting]
  | cons p rest ih =>
    obtain ⟨k', v'⟩ := p
    by_cases h : k' = k
    · simp [storeSetting, findSetting, h]
    · simp [storeSetting, findSetting, h, ih]

theorem setRenderSetting_version_eq (st : DelegateState) (k : String) (v : VtValue) :
    (SetRenderSetting st k v).settingsVersion =
      if findSetting st.settingsMap k = some v then st.settingsVersion
      else st.settingsVersion + 1 := by
  unfold SetRenderSetting
  cases h : findSetting st.settingsMap k with
  | none => simp [h]
  | some prev =>
    by_cases hp : v = prev
    · subst hp
      simp [h]
    · have hp' : ¬ prev = v := fun hh => hp hh.symm
      simp [h, hp, hp']

theorem setRenderSetting_settingsMap (st : DelegateState) (k : String) (v : VtValue) :
    (SetRenderSetting st k v).settingsMap = storeSetting st.settingsMap k v := rfl

/-! ## Claim theorems -/

/-- C1: for any state, key `k` and values `v1 ≠ v2`: `SetRenderSetting(k, v1)`
bumps the version counter exactly when `k` had no prior entry or a prior
value different from `v1`; the immediate second `SetRenderSetting(k, v1)`
leaves the version unchanged; the following `SetRenderSetting(k, v2)` bumps
it again; and after each call the map stores the latest value under `k`. -/
theorem setRenderSetting_version_protocol (st : DelegateState) (k : String)
    (v1 v2 : VtValue) (hne : v1 ≠ v2) :
    ((SetRenderSetting st k v1).settingsVersion =
      if findSetting st.settingsMap k = some v1 then st.settingsVersion
      else st.settingsVersion + 1)
    ∧ (SetRenderSetting (SetRenderSetting st k v1) k v1).settingsVersion =
        (SetRenderSetting st k v1).settingsVersion
    ∧ (SetRenderSetting (SetRenderSetting (SetRenderSetting st k v1) k v1) k v2).settingsVersion =
        (SetRenderSetting (SetRenderSetting st k v1) k v1).settingsVersion + 1
    ∧ findSetting (SetRenderSetting st k v1).settingsMap k = some v1
    ∧ findSetting (SetRenderSetting (SetRenderSetting st k v1) k v1).settingsMap k = some v1
    ∧ findSetting
        (SetRenderSetting (SetRenderSetting (SetRenderSetting st k v1) k v1) k v2).settingsMap
        k = some v2 := by
  have m1 : findSetting (SetRenderSetting st k v1).settingsMap k = some v1 := by
    rw [setRenderSetting_settingsMap]
    exact findSetting_storeSetting_self _ _ _
  have m2 : findSetting (SetRenderSetting (SetRenderSetting st k v1) k v1).settingsMap k
      = some v1 := by
    rw [setRenderSetting_settingsMap]
    exact findSetting_storeSetting_self _ _ _
  have m3 : findSetting
      (SetRenderSetting (SetRenderSetting (SetRenderSetting st k v1) k v1) k v2).settingsMap k
      = some v2 := by
    rw [setRenderSetting_settingsMap]
    exact findSetting_storeSetting_self _ _ _
  refine ⟨setRenderSetting_version_eq st k v1, ?_, ?_, m1, m2, m3⟩
  · rw [setRenderSetting_version_eq, m1, if_pos rfl]
  · rw [setRenderSetting_version_eq, m2, if_neg]
    intro hh
    exact hne (Option.some.inj hh)

theorem setRenderSetting_version_protocol_witness :
    findSetting
      (SetRenderSetting
        (SetRenderSetting
          (SetRenderSetting (initialDelegateState ⟨"", none, "", false⟩ []) "k" (VtValue.intV 1))
          "k" (VtValue.intV 1))
        "k" (VtValue.intV 2)).settingsMap "k" = some (VtValue.intV 2) :=
  (setRenderSetting_version_protocol (initialDelegateState ⟨"", none, "", false⟩ [])
    "k" (VtValue.intV 1) (VtValue.intV 2) (by decide)).2.2.2.2.2

/-- C6: whenever the interactive setting stored in the settings map is
`false`, `IsStopped` returns true, `Stop blocking` returns true for every
`blocking`, and `Restart` returns false — for every delegate state, i.e.
regardless of any prior call sequence. -/
theorem noninteractive_lifecycle (st : DelegateState) (blocking : Bool)
    (h : findSetting st.settingsMap "enableInteractive" = some (VtValue.boolV false)) :
    IsStopped st = true ∧ (Stop st blocking).1 = true ∧ (Restart st).1 = false := by
  have hi : IsInteractive st = false := by
    simp [IsInteractive, getBoolRenderSetting, h]
  refine ⟨?_, ?_, ?_⟩ <;> simp [IsStopped, Stop, Restart, hi]

theorem noninteractive_lifecycle_witness :
    IsStopped ⟨[("enableInteractive", VtValue.boolV false)], 0, [], ⟨0, 0, true⟩⟩ = true
    ∧ (Stop ⟨[("enableInteractive", VtValue.boolV false)], 0, [], ⟨0, 0, true⟩⟩ true).1 = true
    ∧ (Restart ⟨[("enableInteractive", VtValue.boolV false)], 0, [], ⟨0, 0, true⟩⟩).1 = false :=
  noninteractive_lifecycle ⟨[("enableInteractive", VtValue.boolV false)], 0, [], ⟨0, 0, true⟩⟩
    true (by decide)

/-- C7: in interactive configuration `Restart` returns true and increments
the scene-version counter by exactly one, leaving the rendering flag, the
light count, the settings map, the settings version and the descriptor
list unchanged (it does not itself start rendering); in non-interactive
configuration it returns false and changes nothing. -/
theorem restart_bumps_sceneVersion (st : DelegateState) :
    (IsInteractive st = true →
      (Restart st).1 = true
      ∧ (Restart st).2.renderParam.sceneVersion = st.renderParam.sceneVersion + 1
      ∧ (Restart st).2.renderParam.isRendering = st.renderParam.isRendering
      ∧ (Restart st).2.renderParam.sceneLightCount = st.renderParam.sceneLightCount
      ∧ (Restart st).2.settingsMap = st.settingsMap
      ∧ (Restart st).2.settingsVersion = st.settingsVersion
      ∧ (Restart st).2.settingDescriptors = st.settingDescriptors)
    ∧ (IsInteractive st = false → (Restart st).1 = false ∧ (Restart st).2 = st) := by
  constructor
  · intro h
    simp [Restart, h]
  · intro h
    simp [Restart, h]

theorem restart_bumps_sceneVersion_witness :
    (Restart ⟨[], 0, [], ⟨0, 7, false⟩⟩).2.renderParam.sceneVersion = 7 + 1
    ∧ (Restart ⟨[("enableInteractive", VtValue.boolV false)], 0, [], ⟨0, 7, false⟩⟩).1 = false :=
  ⟨((restart_bumps_sceneVersion ⟨[], 0, [], ⟨0, 7, false⟩⟩).1 (by decide)).2.1,
   ((restart_bumps_sceneVersion
      ⟨[("enableInteractive", VtValue.boolV false)], 0, [], ⟨0, 7, false⟩⟩).2 (by decide)).1⟩

/-- C9: the window-conformance-policy setter forwards
`(override-enabled, policy)` when the argument extracts to a concrete
policy, and `(override-disabled, fit)` — no override, not a default
override — when it does not. -/
theorem setOverrideWindowPolicy_absent (o : Option ConformWindowPolicy) :
    (∀ p, o = some p → SetOverrideWindowPolicyWrap o = (true, p))
    ∧ (o = none → SetOverrideWindowPolicyWrap o = (false, ConformWindowPolicy.fit)) := by
  constructor
  · rintro p rfl
    rfl
  · rintro rfl
    rfl

theorem setOverrideWindowPolicy_absent_witness :
    SetOverrideWindowPolicyWrap (some ConformWindowPolicy.crop)
      = (true, ConformWindowPolicy.crop)
    ∧ SetOverrideWindowPolicyWrap none = (false, ConformWindowPolicy.fit) :=
  ⟨(setOverrideWindowPolicy_absent (some ConformWindowPolicy.crop)).1
      ConformWindowPolicy.crop rfl,
   (setOverrideWindowPolicy_absent none).2 rfl⟩

/-- C8: when the engine produces an instancer context whose first entry is
`(p, i)`, the facade tuple exposes exactly `p` and `i` as the top-level
instancer path and index, and the whole returned tuple is the same as if
the context had contained only that first entry — deeper entries are
never surfaced. -/
theorem testIntersection_first_entry (e : EngineIntersection) (p : String) (i : Int)
    (rest : List (String × Int)) (h : e.instancerContext = (p, i) :: rest) :
    (TestIntersectionWrap e).topLevelInstancerPath = p
    ∧ (TestIntersectionWrap e).topLevelInstanceIndex = i
    ∧ TestIntersectionWrap e = TestIntersectionWrap { e with instancerContext := [(p, i)] } := by
  cases e with
  | mk hp hn hpp hip hii ctx =>
    simp only at h
    subst h
    exact ⟨rfl, rfl, rfl⟩

theorem testIntersection_first_entry_witness :
    (TestIntersectionWrap
        ⟨⟨0, 0, 0⟩, ⟨0, 0, 1⟩, "/World/hit", "/World/inst", 5,
         [("/pathA", 3), ("/pathB", 7)]⟩).topLevelInstancerPath = "/pathA"
    ∧ (TestIntersectionWrap
        ⟨⟨0, 0, 0⟩, ⟨0, 0, 1⟩, "/World/hit", "/World/inst", 5,
         [("/pathA", 3), ("/pathB", 7)]⟩).topLevelInstanceIndex = 3
    ∧ TestIntersectionWrap
        ⟨⟨0, 0, 0⟩, ⟨0, 0, 1⟩, "/World/hit", "/World/inst", 5,
         [("/pathA", 3), ("/pathB", 7)]⟩
      = TestIntersectionWrap
        ⟨⟨0, 0, 0⟩, ⟨0, 0, 1⟩, "/World/hit", "/World/inst", 5, [("/pathA", 3)]⟩ :=
  testIntersection_first_entry
    ⟨⟨0, 0, 0⟩, ⟨0, 0, 1⟩, "/World/hit", "/World/inst", 5,
     [("/pathA", 3), ("/pathB", 7)]⟩ "/pathA" 3 [("/pathB", 7)] rfl

/-- C10: when the engine produces an empty instancer context, the facade
tuple reports the empty path and -1 as the top-level instancer path and
index, while still passing through the engine's hit point, normal, prim
path and instance index. -/
theorem testIntersection_empty_context (e : EngineIntersection)
    (h : e.instancerContext = []) :
    TestIntersectionWrap e =
      { hitPoint := e.hitPoint, hitNormal := e.hitNormal
        hitPrimPath := e.hitPrimPath, hitInstanceIndex := e.hitInstanceIndex
        topLevelInstancerPath := "", topLevelInstanceIndex := -1 } := by
  cases e with
  | mk hp hn hpp hip hii ctx =>
    simp only at h
    subst h
    rfl

theorem testIntersection_empty_context_witness :
    TestIntersectionWrap ⟨⟨1, 2, 3⟩, ⟨0, 1, 0⟩, "/World/hit", "/World/inst", 4, []⟩ =
      { hitPoint := ⟨1, 2, 3⟩, hitNormal := ⟨0, 1, 0⟩
        hitPrimPath := "/World/hit", hitInstanceIndex := 4
        topLevelInstancerPath := "", topLevelInstanceIndex := -1 } :=
  testIntersection_empty_context
    ⟨⟨1, 2, 3⟩, ⟨0, 1, 0⟩, "/World/hit", "/World/inst", 4, []⟩ rfl

/-- C5: with the quick-integrate env setting enabled at initialization the
descriptor list is exactly the five base entries plus the alternate
interactive integrator and the timeout-in-ms entry with default 200, in a
fixed order (the two extras sit right after the Integrator entry); with it
disabled, exactly the five base entries.  The flag only enters through
`initSettingDescriptors`, evaluated once at construction;
`GetRenderSettingDescriptors` merely returns the stored list. -/
theorem quickIntegrate_descriptor_list (env : PrmanEnv) (m : List (String × VtValue)) :
    (env.enableQuickIntegrate = true →
      GetRenderSettingDescriptors (initialDelegateState env m) =
        [⟨"Integrator", "integratorName",
          VtValue.stringV (if env.integratorEnv = "" then "PxrPathTracer" else env.integratorEnv)⟩,
         ⟨"Interactive Integrator", "interactiveIntegrator",
          VtValue.stringV "PxrDirectLighting"⟩,
         ⟨"Interactive Integrator Timeout (ms)", "interactiveIntegratorTimeout",
          VtValue.intV 200⟩,
         ⟨"Max Samples", "convergedSamplesPerPixel", VtValue.intV (env.maxSamplesEnv.getD 64)⟩,
         ⟨"Variance Threshold", "convergedVariance", VtValue.floatV (1 / 1000)⟩,
         ⟨"Riley variant", "rileyVariant", VtValue.stringV env.rileyVariantEnv⟩,
         ⟨"Disable motion blur", "disableMotionBlur", VtValue.boolV false⟩]
      ∧ (GetRenderSettingDescriptors (initialDelegateState env m)).length = 7)
    ∧ (env.enableQuickIntegrate = false →
      GetRenderSettingDescriptors (initialDelegateState env m) =
        [⟨"Integrator", "integratorName",
          VtValue.stringV (if env.integratorEnv = "" then "PxrPathTracer" else env.integratorEnv)⟩,
         ⟨"Max Samples", "convergedSamplesPerPixel", VtValue.intV (env.maxSamplesEnv.getD 64)⟩,
         ⟨"Variance Threshold", "convergedVariance", VtValue.floatV (1 / 1000)⟩,
         ⟨"Riley variant", "rileyVariant", VtValue.stringV env.rileyVariantEnv⟩,
         ⟨"Disable motion blur", "disableMotionBlur", VtValue.boolV false⟩]
      ∧ (GetRenderSettingDescriptors (initialDelegateState env m)).length = 5) := by
  constructor
  · intro h
    constructor <;>
      simp [GetRenderSettingDescriptors, initialDelegateState, initSettingDescriptors, h]
  · intro h
    constructor <;>
      simp [GetRenderSettingDescriptors, initialDelegateState, initSettingDescriptors, h]

theorem quickIntegrate_descriptor_list_witness :
    (GetRenderSettingDescriptors (initialDelegateState ⟨"", none, "", true⟩ [])).length = 7
    ∧ (GetRenderSettingDescriptors (initialDelegateState ⟨"", none, "", false⟩ [])).length = 5 :=
  ⟨((quickIntegrate_descriptor_list ⟨"", none, "", true⟩ []).1 rfl).2,
   ((quickIntegrate_descriptor_list ⟨"", none, "", false⟩ []).2 rfl).2⟩

/-- C3: `DestroySprim` decrements the scene light count for every Sprim
with a non-empty path regardless of its class (camera, material, … — the
class is never inspected), while `CreateSprim` increments the count only
for light-category type tags with a non-empty path. -/
theorem destroySprim_counts_any_type (s : Sprim) (rp : RenderParamState)
    (h : s.id ≠ "") :
    (DestroySprim s rp).sceneLightCount = rp.sceneLightCount - 1
    ∧ ∀ t sprimId rp',
        ((CreateSprim t sprimId rp').2).sceneLightCount =
          (if isLightType t = true ∧ sprimId ≠ "" then rp'.sceneLightCount + 1
           else rp'.sceneLightCount) := by
  constructor
  · simp [DestroySprim, h, DecreaseSceneLightCount]
  · intro t sprimId rp'
    by_cases hL : isLightType t = true
    · have hmem : t ∈ lightTokens := (isLightType_iff_mem t).mp hL
      fin_cases hmem <;> by_cases hid : sprimId = "" <;>
        simp [CreateSprim, IncreaseSceneLightCount, isLightType, hid]
    · have hL' : isLightType t = false := by
        simpa using hL
      simp only [CreateSprim, hL', Bool.false_eq_true, if_false, hL, false_and]
      split_ifs <;> rfl

theorem destroySprim_counts_any_type_witness :
    (DestroySprim ⟨SprimClass.camera, "/World/cam", "camera"⟩ ⟨0, 0, false⟩).sceneLightCount
      = 0 - 1 :=
  (destroySprim_counts_any_type ⟨SprimClass.camera, "/World/cam", "camera"⟩ ⟨0, 0, false⟩
    (by decide)).1

/-- C4: for every type tag in the closed supported set of its category,
each factory (`CreateRprim`, `CreateSprim`, `CreateBprim`, and the
fallback variants `CreateFallbackSprim`/`CreateFallbackBprim`) returns an
object whose reported type is the requested tag, without emitting a
coding error; for every tag outside the set it emits `TF_CODING_ERROR`
and returns a null pointer. -/
theorem prim_factory_closed_dispatch (t primPath : String) :
    (t ∈ SUPPORTED_RPRIM_TYPES →
      (CreateRprim t primPath).1.map Rprim.reportedType = some t
      ∧ (CreateRprim t primPath).2 = false)
    ∧ (t ∉ SUPPORTED_RPRIM_TYPES →
      (CreateRprim t primPath).1 = none ∧ (CreateRprim t primPath).2 = true)
    ∧ (t ∈ SUPPORTED_SPRIM_TYPES → ∀ rp,
      ((CreateSprim t primPath rp).1.1.map Sprim.reportedType = some t
        ∧ (CreateSprim t primPath rp).1.2 = false)
      ∧ ((CreateFallbackSprim t).1.map Sprim.reportedType = some t
        ∧ (CreateFallbackSprim t).2 = false))
    ∧ (t ∉ SUPPORTED_SPRIM_TYPES → ∀ rp,
      ((CreateSprim t primPath rp).1.1 = none ∧ (CreateSprim t primPath rp).1.2 = true)
      ∧ ((CreateFallbackSprim t).1 = none ∧ (CreateFallbackSprim t).2 = true))
    ∧ (t ∈ SUPPORTED_BPRIM_TYPES →
      ((CreateBprim t primPath).1.map Bprim.reportedType = some t
        ∧ (CreateBprim t primPath).2 = false)
      ∧ ((CreateFallbackBprim t).1.map Bprim.reportedType = some t
        ∧ (CreateFallbackBprim t).2 = false))
    ∧ (t ∉ SUPPORTED_BPRIM_TYPES →
      ((CreateBprim t primPath).1 = none ∧ (CreateBprim t primPath).2 = true)
      ∧ ((CreateFallbackBprim t).1 = none ∧ (CreateFallbackBprim t).2 = true)) := by
  refine ⟨?_, ?_, ?_, ?_, ?_, ?_⟩
  · intro h
    fin_cases h <;> exact ⟨rfl, rfl⟩
  · intro h
    simp only [SUPPORTED_RPRIM_TYPES, List.mem_cons, List.not_mem_nil, or_false,
      not_or] at h
    obtain ⟨h1, h2, h3, h4⟩ := h
    simp [CreateRprim, h1, h2, h3, h4]
  · intro h
    fin_cases h <;> exact fun rp => ⟨⟨rfl, rfl⟩, rfl, rfl⟩
  · intro h
    simp only [SUPPORTED_SPRIM_TYPES, List.mem_cons, List.not_mem_nil, or_false,
      not_or] at h
    obtain ⟨h1, h2, h3, h4, h5, h6, h7, h8, h9, h10, h11, h12, h13, h14⟩ := h
    have hlf : isLightType t = false := by
      simp [isLightType, h3, h4, h5, h7, h8, h9, h10, h11]
    intro rp
    refine ⟨⟨?_, ?_⟩, ?_, ?_⟩ <;>
      simp [CreateSprim, CreateFallbackSprim,
        h1, h2, h6, h12, h13, h14, hlf]
  · intro h
    fin_cases h <;> exact ⟨⟨rfl, rfl⟩, rfl, rfl⟩
  · intro h
    simp only [SUPPORTED_BPRIM_TYPES, List.mem_cons, List.not_mem_nil, or_false,
      not_or] at h
    obtain ⟨h1, h2, h3⟩ := h
    refine ⟨⟨?_, ?_⟩, ?_, ?_⟩ <;> simp [CreateBprim, CreateFallbackBprim, h1, h2, h3]

theorem prim_factory_closed_dispatch_witness :
    ((CreateRprim "mesh" "/World/g").1.map Rprim.reportedType = some "mesh"
      ∧ (CreateRprim "mesh" "/World/g").2 = false)
    ∧ ((CreateRprim "bogus" "/World/g").1 = none ∧ (CreateRprim "bogus" "/World/g").2 = true)
    ∧ (((CreateSprim "domeLight" "/World/g" ⟨0, 0, false⟩).1.1.map Sprim.reportedType
          = some "domeLight"
        ∧ (CreateSprim "domeLight" "/World/g" ⟨0, 0, false⟩).1.2 = false)
      ∧ ((CreateFallbackSprim "domeLight").1.map Sprim.reportedType = some "domeLight"
        ∧ (CreateFallbackSprim "domeLight").2 = false))
    ∧ (((CreateSprim "bogus" "/World/g" ⟨0, 0, false⟩).1.1 = none
        ∧ (CreateSprim "bogus" "/World/g" ⟨0, 0, false⟩).1.2 = true)
      ∧ ((CreateFallbackSprim "bogus").1 = none ∧ (CreateFallbackSprim "bogus").2 = true))
    ∧ (((CreateBprim "openvdbAsset" "/World/g").1.map Bprim.reportedType = some "openvdbAsset"
        ∧ (CreateBprim "openvdbAsset" "/World/g").2 = false)
      ∧ ((CreateFallbackBprim "openvdbAsset").1.map Bprim.reportedType = some "openvdbAsset"
        ∧ (CreateFallbackBprim "openvdbAsset").2 = false))
    ∧ (((CreateBprim "bogus" "/World/g").1 = none ∧ (CreateBprim "bogus" "/World/g").2 = true)
      ∧ ((CreateFallbackBprim "bogus").1 = none ∧ (CreateFallbackBprim "bogus").2 = true)) :=
  ⟨(prim_factory_closed_dispatch "mesh" "/World/g").1 (by decide),
   (prim_factory_closed_dispatch "bogus" "/World/g").2.1 (by decide),
   (prim_factory_closed_dispatch "domeLight" "/World/g").2.2.1 (by decide) ⟨0, 0, false⟩,
   (prim_factory_closed_dispatch "bogus" "/World/g").2.2.2.1 (by decide) ⟨0, 0, false⟩,
   (prim_factory_closed_dispatch "openvdbAsset" "/World/g").2.2.2.2.1 (by decide),
   (prim_factory_closed_dispatch "bogus" "/World/g").2.2.2.2.2 (by decide)⟩

theorem countP_eraseIdx (p : Sprim → Bool) (l : List Sprim) (i : Nat) (s : Sprim)
    (h : l[i]? = some s) :
    l.countP p = (l.eraseIdx i).countP p + (if p s then 1 else 0) := by
  induction l generalizing i with
  | nil => simp at h
  | cons x xs ih =>
    cases i with
    | zero =>
      simp only [List.getElem?_cons_zero, Option.some.injEq] at h
      subst h
      simp [List.countP_cons, List.eraseIdx]
    | succ n =>
      simp only [List.getElem?_cons_succ] at h
      have hx := ih n h
      simp only [List.countP_cons, List.eraseIdx]
      omega

theorem createSprim_light_eq (t sprimId : String) (rp : RenderParamState)
    (h : isLightType t = true) :
    CreateSprim t sprimId rp =
      ((some ⟨SprimClass.light, sprimId, t⟩, false),
       if sprimId ≠ "" then IncreaseSceneLightCount rp else rp) := by
  have hmem : t ∈ lightTokens := (isLightType_iff_mem t).mp h
  fin_cases hmem <;> rfl

theorem createFallbackSprim_light_eq (t : String) (h : isLightType t = true) :
    CreateFallbackSprim t = (some ⟨SprimClass.light, "", t⟩, false) := by
  have hmem : t ∈ lightTokens := (isLightType_iff_mem t).mp h
  fin_cases hmem <;> rfl

theorem runSprimOp_light_invariant (op : SprimOp) (live : List Sprim)
    (rp : RenderParamState) (hop : op.onLightTags = true)
    (hlive : ∀ s ∈ live, s.cls = SprimClass.light)
    (hcount : rp.sceneLightCount = (liveNonFallbackLights live : Int)) :
    (∀ s ∈ (runSprimOp (live, rp) op).1, s.cls = SprimClass.light)
    ∧ (runSprimOp (live, rp) op).2.sceneLightCount =
        (liveNonFallbackLights (runSprimOp (live, rp) op).1 : Int) := by
  cases op with
  | create t sprimId =>
    have hl : isLightType t = true := hop
    simp only [runSprimOp, createSprim_light_eq t sprimId rp hl]
    constructor
    · intro s hs
      rcases List.mem_cons.mp hs with rfl | hmem
      · rfl
      · exact hlive s hmem
    · by_cases hid : sprimId = "" <;>
        simp [liveNonFallbackLights, List.countP_cons, nonFallbackLight, hid,
          IncreaseSceneLightCount, hcount]
  | createFallback t =>
    have hl : isLightType t = true := hop
    simp only [runSprimOp, createFallbackSprim_light_eq t hl]
    constructor
    · intro s hs
      rcases List.mem_cons.mp hs with rfl | hmem
      · rfl
      · exact hlive s hmem
    · simp [liveNonFallbackLights, List.countP_cons, nonFallbackLight, hcount]
  | destroy i =>
    cases hget : live[i]? with
    | none => simpa [runSprimOp, hget] using ⟨hlive, hcount⟩
    | some s =>
      have hmem : s ∈ live := List.getElem?_mem hget
      have hsub := List.eraseIdx_sublist live i
      have hcls := hlive s hmem
      constructor
      · intro s' hs'
        simp only [runSprimOp, hget] at hs'
        exact hlive s' (hsub.subset hs')
      · have hcp := countP_eraseIdx nonFallbackLight live i s hget
        simp only [runSprimOp, hget]
        by_cases hid : s.id = ""
        · have hps : nonFallbackLight s = false := by
            simp [nonFallbackLight, hid]
          rw [hps] at hcp
          simp only [Bool.false_eq_true, if_false, Nat.add_zero] at hcp
          have hdc : (DestroySprim s rp).sceneLightCount = rp.sceneLightCount := by
            simp [DestroySprim, hid]
          rw [hdc, hcount]
          simp only [liveNonFallbackLights] at hcp ⊢
          omega
        · have hps : nonFallbackLight s = true := by
            simp [nonFallbackLight, hid, hcls]
          rw [hps] at hcp
          simp only [if_pos] at hcp
          have hdc : (DestroySprim s rp).sceneLightCount = rp.sceneLightCount - 1 := by
            simp [DestroySprim, hid, DecreaseSceneLightCount]
          rw [hdc, hcount]
          simp only [liveNonFallbackLights] at hcp ⊢
          omega

theorem runSprimOps_light_invariant (ops : List SprimOp) (live : List Sprim)
    (rp : RenderParamState) (hops : ∀ op ∈ ops, op.onLightTags = true)
    (hlive : ∀ s ∈ live, s.cls = SprimClass.light)
    (hcount : rp.sceneLightCount = (liveNonFallbackLights live : Int)) :
    (∀ s ∈ (runSprimOps ops (live, rp)).1, s.cls = SprimClass.light)
    ∧ (runSprimOps ops (live, rp)).2.sceneLightCount =
        (liveNonFallbackLights (runSprimOps ops (live, rp)).1 : Int) := by
  induction ops generalizing live rp with
  | nil => exact ⟨hlive, hcount⟩
  | cons op rest ih =>
    have h1 := runSprimOp_light_invariant op live rp (hops op (by simp)) hlive hcount
    have hops' : ∀ o ∈ rest, o.onLightTags = true := fun o ho => hops o (by simp [ho])
    have h2 := ih (runSprimOp (live, rp) op).1 (runSprimOp (live, rp) op).2 hops' h1.1 h1.2
    simpa [runSprimOps, List.foldl_cons] using h2

/-- C2: for every sequence of `CreateSprim` / `CreateFallbackSprim` /
`DestroySprim` calls on light-category type tags, starting from an empty
scene, the scene light count equals the number of currently-live
non-fallback light instances (so every increment at creation of a
non-fallback light is matched by the decrement at its destruction);
moreover creating a fallback light never touches the render-param state
and destroying a fallback instance never changes the count. -/
theorem sceneLightCount_invariant (ops : List SprimOp)
    (hops : ∀ op ∈ ops, op.onLightTags = true) :
    (runSprimOps ops ([], ⟨0, 0, false⟩)).2.sceneLightCount =
      (liveNonFallbackLights (runSprimOps ops ([], ⟨0, 0, false⟩)).1 : Int)
    ∧ (∀ t live rp, isLightType t = true →
        (runSprimOp (live, rp) (SprimOp.createFallback t)).2 = rp)
    ∧ (∀ s rp, s.id = "" → DestroySprim s rp = rp) := by
  refine ⟨?_, ?_, ?_⟩
  · exact (runSprimOps_light_invariant ops [] ⟨0, 0, false⟩ hops (by simp)
      (by simp [liveNonFallbackLights])).2
  · intro t live rp hl
    simp [runSprimOp, createFallbackSprim_light_eq t hl]
  · intro s rp h
    simp [DestroySprim, h]

theorem sceneLightCount_invariant_witness :
    (runSprimOps demoLightOps ([], ⟨0, 0, false⟩)).2.sceneLightCount =
      (liveNonFallbackLights (runSprimOps demoLightOps ([], ⟨0, 0, false⟩)).1 : Int) :=
  (sceneLightCount_invariant demoLightOps (by decide)).1

end OpenUSD
